import Mathlib

/-!
A shallow embedding of the compute-shader raytracer's CPU-side core
(`src/glUtil.hpp`, `src/Program.cpp`, `src/Buffer.cpp`, `src/Texture.cpp`,
`src/VertexArray.cpp`, `src/ShaderStructs.hpp`, `src/ComputeRaytraceRenderer.{hpp,cpp}`,
`src/main.cpp`), together with theorems checking the natural-language
specification against it.

Modelling conventions:
* GL float payloads (`GLfloat`) are carried by the CPU code but never computed
  on; they are modelled as exact rationals.
* GL calls that mutate driver state are modelled as explicit `GLCommand`
  values, emitted in program order; the per-object state the claims talk
  about (a program's active uniforms and their values, a texture's storage
  dimensions, a buffer's contents) is threaded explicitly.
* C++ exceptions (`std::runtime_error`) are modelled with `Except GLError`;
  a thrown constructor/call yields `.error e` and, since the throw happens
  before any subsequent GL call, yields no modified state.
* `glGetProgramResourceIndex`'s `GL_INVALID_INDEX` sentinel is modelled as
  `Option.none`.
-/

namespace CSRT

/-- GL floats as carried by the CPU side (never computed on): exact rationals. -/
abbrev GLfloat := Rat

/-- Embeds `glm::vec3` / a 3-float record (`Color`, `Position` in ShaderStructs.hpp). -/
structure Vec3 where
  x : GLfloat
  y : GLfloat
  z : GLfloat
deriving DecidableEq, Repr

/-- RGB color (`typedef GLfloat Color[3]`, ShaderStructs.hpp:26). -/
abbrev Color := Vec3

/-- XYZ position (`typedef GLfloat Position[3]`, ShaderStructs.hpp:29). -/
abbrev Position := Vec3

/-- Embeds `struct Material` (ShaderStructs.hpp:39-46). -/
structure Material where
  specular : GLfloat
  diffuse : GLfloat
  ambient : GLfloat
  shininess : GLfloat
  color : Color
deriving DecidableEq, Repr

/-- Embeds `struct Sphere` (ShaderStructs.hpp:54-59).  `material` is a `GLint`
index into the material list; the C++ type puts no constraint on it. -/
structure Sphere where
  position : Position
  r : GLfloat
  material : Int
deriving DecidableEq, Repr

/-- Embeds `struct OmniLight` (ShaderStructs.hpp:66-70). -/
structure OmniLight where
  position : Position
  color : Color
deriving DecidableEq, Repr

/-- Embeds `struct Scene` (ComputeRaytraceRenderer.hpp:31-36). -/
structure Scene where
  materials : List Material
  spheres : List Sphere
  lights : List OmniLight
deriving DecidableEq, Repr

/- ===[ GL constants (numeric values from GL/glew.h) ]=== -/

def GL_TEXTURE_2D : Nat := 0x0DE1
def GL_TEXTURE0 : Nat := 0x84C0
def GL_SHADER_IMAGE_ACCESS_BARRIER_BIT : Nat := 0x00000020
def GL_TRIANGLES : Nat := 0x0004
def GL_COLOR_BUFFER_BIT : Nat := 0x00004000
def GL_DEPTH_BUFFER_BIT : Nat := 0x00000100
def GL_STATIC_DRAW : Nat := 0x88E4
def GL_SHADER_STORAGE_BUFFER : Nat := 0x90D2
def GL_ARRAY_BUFFER : Nat := 0x8892
def GL_RGBA32F : Nat := 0x8814
def GL_READ_WRITE : Nat := 0x88BA
def GL_CLAMP_TO_EDGE : Nat := 0x812F
def GL_NEAREST : Nat := 0x2600
def GL_TEXTURE_WRAP_S : Nat := 0x2802
def GL_TEXTURE_WRAP_T : Nat := 0x2803
def GL_TEXTURE_MAG_FILTER : Nat := 0x2800
def GL_TEXTURE_MIN_FILTER : Nat := 0x2801

/-- A value held by a GL uniform (as written by glUniform1f/1i/3fv). -/
inductive GLUniformVal where
  | f (value : GLfloat)
  | i (value : Int)
  | vec3 (value : Vec3)
deriving DecidableEq, Repr

/-- The errors thrown by the CPU core (all `std::runtime_error` in C++; the
spec calls them `UnknownUniformError` and `UnknownStorageBlockError`).
`noSuchUniform u` models the throw in `Program::_getUniformLocation`
(Program.cpp:92-93) whose message names the uniform `u`.
`noShaderStorageBlockNamed n` models the throw in
`ComputeRaytraceRenderer::_initComputeBuffer` (ComputeRaytraceRenderer.hpp:66-68)
whose message says "no shader storage block named" `n`. -/
inductive GLError where
  | noSuchUniform (uniform : String)
  | noShaderStorageBlockNamed (name : String)
  | linkFailed (infolog : String)
deriving DecidableEq, Repr

/-- A GL call that mutates driver/context state, recorded in program order. -/
inductive GLCommand where
  | useProgram (id : Nat)
  | activeTexture (unit : Nat)
  | bindTexture (target : Nat) (id : Nat)
  | texParameteri (pname : Nat) (param : Nat)
  | texImage2D (target : Nat) (internalformat : Nat) (width : Nat) (height : Nat)
  | bindImageTexture (unit : Nat) (texture : Nat) (access : Nat) (format : Nat)
  | bindBuffer (target : Nat) (id : Nat)
  | bufferData (target : Nat) (usage : Nat) (count : Nat)
  | bindBufferBase (target : Nat) (index : Nat) (id : Nat)
  | uniform1i (location : Int) (value : Int)
  | uniform1f (location : Int) (value : GLfloat)
  | uniform3f (location : Int) (value : Vec3)
  | dispatchCompute (x : Nat) (y : Nat) (z : Nat)
  | memoryBarrier (barriers : Nat)
  | clearColor (r : GLfloat) (g : GLfloat) (b : GLfloat) (a : GLfloat)
  | clear (mask : Nat)
  | bindVertexArray (id : Nat)
  | drawArrays (mode : Nat) (first : Int) (count : Nat)
deriving DecidableEq, Repr

/- ===[ Program (glUtil.hpp:65-83, Program.cpp) ]=== -/

/-- A linked GL program object: its name (`id`), the active uniforms the
driver reports (name to location, as answered by `glGetUniformLocation`),
the shader storage blocks the program declares (in declaration order, as
answered by `glGetProgramResourceIndex`), and the current uniform values
(location to value, as written by `glUniform*`). -/
structure Program where
  id : Nat
  uniformLocs : List (String × Nat)
  storageBlocks : List String
  uniformVals : List (Int × GLUniformVal)
deriving DecidableEq, Repr

/-- Models `glGetUniformLocation`: the location of an active uniform, or -1. -/
def glGetUniformLocation (program : Program) (uniform : String) : Int :=
  match program.uniformLocs.lookup uniform with
  | some l => Int.ofNat l
  | none => -1

/-- The program has an active uniform of this name. -/
def Program.hasActiveUniform (program : Program) (uniform : String) : Bool :=
  (program.uniformLocs.lookup uniform).isSome

/-- Embeds `Program::_getUniformLocation` (Program.cpp:87-96): resolves the name via
`glGetUniformLocation` and throws (message naming the uniform) on -1. -/
def Program._getUniformLocation (program : Program) (uniform : String) :
    Except GLError Int :=
  let location := glGetUniformLocation program uniform
  if location = -1 then
    .error (.noSuchUniform uniform)
  else
    .ok location

/-- Models `glUniform1f`: store a float at a uniform location. -/
def glUniform1f (program : Program) (location : Int) (value : GLfloat) : Program :=
  { program with uniformVals := (location, .f value) :: program.uniformVals }

/-- Models `glUniform1i`: store an int at a uniform location. -/
def glUniform1i (program : Program) (location : Int) (value : Int) : Program :=
  { program with uniformVals := (location, .i value) :: program.uniformVals }

/-- Models `glUniform3fv`: store a vec3 at a uniform location. -/
def glUniform3fv (program : Program) (location : Int) (value : Vec3) : Program :=
  { program with uniformVals := (location, .vec3 value) :: program.uniformVals }

/-- Embeds `Program::setUniformF` (Program.cpp:71-74).  The location argument is
evaluated first, so a throw from `_getUniformLocation` happens before
`glUniform1f` is invoked; on error no state changes and no command is issued. -/
def Program.setUniformF (program : Program) (uniform : String) (value : GLfloat) :
    Except GLError (Program × GLCommand) :=
  match program._getUniformLocation uniform with
  | .error e => .error e
  | .ok location => .ok (glUniform1f program location value, .uniform1f location value)

/-- Embeds `Program::setUniformI` (Program.cpp:76-79). -/
def Program.setUniformI (program : Program) (uniform : String) (value : Int) :
    Except GLError (Program × GLCommand) :=
  match program._getUniformLocation uniform with
  | .error e => .error e
  | .ok location => .ok (glUniform1i program location value, .uniform1i location value)

/-- Embeds `Program::setUniformVec3` (Program.cpp:81-84). -/
def Program.setUniformVec3 (program : Program) (uniform : String) (value : Vec3) :
    Except GLError (Program × GLCommand) :=
  match program._getUniformLocation uniform with
  | .error e => .error e
  | .ok location => .ok (glUniform3fv program location value, .uniform3f location value)

/-- The program state after `setUniformF` returns or throws: on a throw the
`glUniform1f` call was never reached (Program.cpp:73 evaluates the location
argument first), so the state is the prior one. -/
def Program.setUniformFState (program : Program) (uniform : String) (value : GLfloat) :
    Program :=
  match program.setUniformF uniform value with
  | .ok (p2, _) => p2
  | .error _ => program

/-- The program state after `setUniformI` returns or throws. -/
def Program.setUniformIState (program : Program) (uniform : String) (value : Int) :
    Program :=
  match program.setUniformI uniform value with
  | .ok (p2, _) => p2
  | .error _ => program

/-- The program state after `setUniformVec3` returns or throws. -/
def Program.setUniformVec3State (program : Program) (uniform : String) (value : Vec3) :
    Program :=
  match program.setUniformVec3 uniform value with
  | .ok (p2, _) => p2
  | .error _ => program

/-- Helper: whether an `Except` result is a success. -/
def isOkE {α : Type} (e : Except GLError α) : Bool :=
  match e with
  | .ok _ => true
  | .error _ => false

/-- Helper: the success value of an `Except`, or a fallback. -/
def okValue {α : Type} (e : Except GLError α) (fallback : α) : α :=
  match e with
  | .ok a => a
  | .error _ => fallback

/- ===[ Resource deleters (Texture.cpp, Buffer.cpp, VertexArray.cpp, Program.cpp) ]=== -/

/-- A GL object-deletion call. -/
inductive DeleteCall where
  | deleteShader (id : Nat)
  | deleteProgram (id : Nat)
  | deleteBuffers (id : Nat)
  | deleteVertexArrays (id : Nat)
  | deleteTextures (id : Nat)
deriving DecidableEq, Repr

/-- The kind of GL object. -/
inductive GLObjKind where
  | shaderObj
  | programObj
  | bufferObj
  | vertexArrayObj
  | textureObj
deriving DecidableEq, Repr

/-- The kind of GL object a deletion call releases. -/
def DeleteCall.kindReleased : DeleteCall → GLObjKind
  | .deleteShader _ => .shaderObj
  | .deleteProgram _ => .programObj
  | .deleteBuffers _ => .bufferObj
  | .deleteVertexArrays _ => .vertexArrayObj
  | .deleteTextures _ => .textureObj

/-- Embeds `_texture_delete` (Texture.cpp:24-28): the deleter installed by the
`Texture` constructor.  The source calls `glDeleteBuffers(1, texture)`. -/
def _texture_delete (texture : Nat) : DeleteCall :=
  .deleteBuffers texture

/-- Embeds `_buffer_delete` (Buffer.cpp:24-28): calls `glDeleteBuffers(1, buffer)`. -/
def _buffer_delete (buffer : Nat) : DeleteCall :=
  .deleteBuffers buffer

/-- Embeds `_vertex_array_delete` (VertexArray.cpp:24-28): calls
`glDeleteVertexArrays(1, vertexarray)`. -/
def _vertex_array_delete (vertexarray : Nat) : DeleteCall :=
  .deleteVertexArrays vertexarray

/-- Embeds `ProgramDeleter::operator()` (Program.cpp:29-33): calls
`glDeleteProgram(*program)`. -/
def ProgramDeleter (program : Nat) : DeleteCall :=
  .deleteProgram program

/-- The kind of GL object the `Texture` constructor acquires:
`glGenTextures` (Texture.cpp:35). -/
def Texture.kindAcquired : GLObjKind := .textureObj

/-- The kind of GL object the `Buffer` constructor acquires:
`glCreateBuffers` (Buffer.cpp:34). -/
def Buffer.kindAcquired : GLObjKind := .bufferObj

/-- The kind of GL object the `VertexArray` constructor acquires:
`glCreateVertexArrays` (VertexArray.cpp:34). -/
def VertexArray.kindAcquired : GLObjKind := .vertexArrayObj

/-- The kind of GL object the `Program` constructor acquires:
`glCreateProgram` (Program.cpp:37). -/
def Program.kindAcquired : GLObjKind := .programObj

/- ===[ Texture and Buffer objects ]=== -/

/-- A GL texture object: its name, its fixed type (`_type`, set at
construction, Texture.cpp:31-41), and its storage dimensions as last
allocated by `glTexImage2D` (format is always `GL_RGBA32F` here). -/
structure Texture where
  id : Nat
  ttype : Nat
  width : Nat
  height : Nat
deriving DecidableEq, Repr

/-- A GL buffer object holding elements of type `T`: its name, its target
(`GL_SHADER_STORAGE_BUFFER` for the scene buffers), and its contents.
`Buffer::buffer(usage, data)` (glBufferData) performs a full replace of the
contents. -/
structure Buffer (T : Type) where
  id : Nat
  target : Nat
  data : List T
deriving DecidableEq, Repr

/-- Models `glGetProgramResourceIndex(id, GL_SHADER_STORAGE_BLOCK, name)`: the
index of the named storage block among the program's declared blocks;
the `GL_INVALID_INDEX` sentinel is modelled as `none`. -/
def resourceIndexAux (name : String) : List String → Option Nat
  | [] => none
  | b :: rest =>
      if b = name then some 0 else (resourceIndexAux name rest).map (· + 1)

/-- See `resourceIndexAux`. -/
def glGetProgramResourceIndex (program : Program) (name : String) : Option Nat :=
  resourceIndexAux name program.storageBlocks

/- ===[ ComputeRaytraceRenderer (ComputeRaytraceRenderer.{hpp,cpp}) ]=== -/

/-- Embeds `class ComputeRaytraceRenderer` state (ComputeRaytraceRenderer.hpp:42-92).
The camera/shading members are public fields assigned by the caller after
construction (main.cpp:463-468). -/
structure ComputeRaytraceRenderer where
  _compute : Program
  _renderResult : Texture
  _spheres : Buffer Sphere
  _materials : Buffer Material
  _lights : Buffer OmniLight
  _width : Nat
  _height : Nat
  ambientColor : Vec3
  blankColor : Vec3
  eyePosition : Vec3
  eyeForward : Vec3
  eyeUp : Vec3
  fov : GLfloat
deriving DecidableEq, Repr

/-- Embeds `ComputeRaytraceRenderer::_initComputeBuffer`
(ComputeRaytraceRenderer.hpp:54-72): binds the buffer, uploads `data`
(full replace), resolves the storage-block index of `buffer_name` against
the compute program, throws if it is `GL_INVALID_INDEX` — note the thrown
message hardcodes the name "Spheres" for every `buffer_name` — then binds
the buffer to the resolved base index and unbinds. -/
def _initComputeBuffer {T : Type} (compute : Program) (buffer : Buffer T)
    (buffer_name : String) (data : List T) :
    Except GLError (Buffer T × List GLCommand) :=
  let buffer2 : Buffer T := { buffer with data := data }
  match glGetProgramResourceIndex compute buffer_name with
  | none =>
      .error (.noShaderStorageBlockNamed "Spheres")
  | some binding =>
      .ok (buffer2,
        [.bindBuffer buffer2.target buffer2.id,
         .bufferData buffer2.target GL_STATIC_DRAW data.length,
         .bindBufferBase buffer2.target binding buffer2.id,
         .bindBuffer buffer2.target 0])

/-- The `ComputeRaytraceRenderer` constructor
(ComputeRaytraceRenderer.cpp:55-88).  The GL object names the member
constructors would obtain from the driver are passed in (`texId` for the
output texture, `sphereId`/`materialId`/`lightId` for the three SSBOs);
`compute` is the linked compute program.  The body configures the output
texture, allocates its storage at (width, height), registers it as image
unit 0, then initializes the Spheres, Materials and Lights SSBOs in that
order.  The public camera fields are not assigned by the constructor; they
are modelled as zero until the caller assigns them. -/
def ComputeRaytraceRenderer.construct (compute : Program)
    (texId sphereId materialId lightId : Nat)
    (scene : Scene) (width height : Nat) :
    Except GLError (ComputeRaytraceRenderer × List GLCommand) :=
  let renderResult : Texture :=
    { id := texId, ttype := GL_TEXTURE_2D, width := width, height := height }
  let texSetup : List GLCommand :=
    [.bindTexture GL_TEXTURE_2D texId,
     .texParameteri GL_TEXTURE_WRAP_S GL_CLAMP_TO_EDGE,
     .texParameteri GL_TEXTURE_WRAP_T GL_CLAMP_TO_EDGE,
     .texParameteri GL_TEXTURE_MAG_FILTER GL_NEAREST,
     .texParameteri GL_TEXTURE_MIN_FILTER GL_NEAREST,
     .texImage2D GL_TEXTURE_2D GL_RGBA32F width height,
     .bindImageTexture 0 texId GL_READ_WRITE GL_RGBA32F,
     .bindTexture GL_TEXTURE_2D 0]
  match _initComputeBuffer compute
      { id := sphereId, target := GL_SHADER_STORAGE_BUFFER, data := [] }
      "Spheres" scene.spheres with
  | .error e => .error e
  | .ok (spheres, t1) =>
  match _initComputeBuffer compute
      { id := materialId, target := GL_SHADER_STORAGE_BUFFER, data := [] }
      "Materials" scene.materials with
  | .error e => .error e
  | .ok (materials, t2) =>
  match _initComputeBuffer compute
      { id := lightId, target := GL_SHADER_STORAGE_BUFFER, data := [] }
      "Lights" scene.lights with
  | .error e => .error e
  | .ok (lights, t3) =>
    .ok ({ _compute := compute, _renderResult := renderResult,
           _spheres := spheres, _materials := materials, _lights := lights,
           _width := width, _height := height,
           ambientColor := ⟨0, 0, 0⟩, blankColor := ⟨0, 0, 0⟩,
           eyePosition := ⟨0, 0, 0⟩, eyeForward := ⟨0, 0, 0⟩,
           eyeUp := ⟨0, 0, 0⟩, fov := 0 },
         texSetup ++ t1 ++ t2 ++ t3)

/-- Embeds `ComputeRaytraceRenderer::getResult` (ComputeRaytraceRenderer.cpp:90-93). -/
def ComputeRaytraceRenderer.getResult (r : ComputeRaytraceRenderer) : Texture :=
  r._renderResult

/-- Embeds `ComputeRaytraceRenderer::setRenderDimensions`
(ComputeRaytraceRenderer.cpp:95-104): stores the new dimensions, binds the
output texture, reallocates its storage via `glTexImage2D`, unbinds. -/
def ComputeRaytraceRenderer.setRenderDimensions (r : ComputeRaytraceRenderer)
    (width height : Nat) : ComputeRaytraceRenderer × List GLCommand :=
  ({ r with _width := width, _height := height,
            _renderResult := { r._renderResult with width := width, height := height } },
   [.bindTexture r._renderResult.ttype r._renderResult.id,
    .texImage2D r._renderResult.ttype GL_RGBA32F width height,
    .bindTexture r._renderResult.ttype 0])

/-- Embeds `ComputeRaytraceRenderer::render` (ComputeRaytraceRenderer.cpp:106-130):
activates the compute program, selects texture unit 0 and binds the output
texture to it, sets the uniforms `outputImg`, `ambientColor`, `blankColor`,
`eyePosition`, `eyeUp`, `eyeForward`, `fov` in that order (the `setUniformS`
overloads dispatch to `setUniformI`/`setUniformVec3`/`setUniformF` by value
type), dispatches a (width, height, 1) compute grid and issues
`glMemoryBarrier(GL_SHADER_IMAGE_ACCESS_BARRIER_BIT)`.  There is no
try/catch: a throw from any `setUniform` aborts the call. -/
def ComputeRaytraceRenderer.render (r : ComputeRaytraceRenderer) :
    Except GLError (ComputeRaytraceRenderer × List GLCommand) :=
  match r._compute.setUniformI "outputImg" 0 with
  | .error e => .error e
  | .ok (p1, c1) =>
  match p1.setUniformVec3 "ambientColor" r.ambientColor with
  | .error e => .error e
  | .ok (p2, c2) =>
  match p2.setUniformVec3 "blankColor" r.blankColor with
  | .error e => .error e
  | .ok (p3, c3) =>
  match p3.setUniformVec3 "eyePosition" r.eyePosition with
  | .error e => .error e
  | .ok (p4, c4) =>
  match p4.setUniformVec3 "eyeUp" r.eyeUp with
  | .error e => .error e
  | .ok (p5, c5) =>
  match p5.setUniformVec3 "eyeForward" r.eyeForward with
  | .error e => .error e
  | .ok (p6, c6) =>
  match p6.setUniformF "fov" r.fov with
  | .error e => .error e
  | .ok (p7, c7) =>
    .ok ({ r with _compute := p7 },
         [.useProgram r._compute.id,
          .activeTexture GL_TEXTURE0,
          .bindTexture r._renderResult.ttype r._renderResult.id,
          c1, c2, c3, c4, c5, c6, c7,
          .dispatchCompute r._width r._height 1,
          .memoryBarrier GL_SHADER_IMAGE_ACCESS_BARRIER_BIT])

/-- The uniform names `render()` sets, in order. -/
def renderUniformNames : List String :=
  ["outputImg", "ambientColor", "blankColor", "eyePosition", "eyeUp",
   "eyeForward", "fov"]

/- ===[ RenderResultDisplay (ComputeRaytraceRenderer.cpp:133-188) ]=== -/

/-- Embeds `class RenderResultDisplay` state: the graphics program and the
screen-quad vertex array object name. -/
structure RenderResultDisplay where
  _display : Program
  _screenQuadVAO : Nat
deriving DecidableEq, Repr

/-- Embeds `RenderResultDisplay::_screenQuadVertices`
(ComputeRaytraceRenderer.cpp:177-187): 6 vertices of 5 floats each
(xyz position + uv texcoord), two triangles covering the screen. -/
def RenderResultDisplay._screenQuadVertices : List GLfloat :=
  [-1, 1, 0, 0, 1,
    1, 1, 0, 1, 1,
    1, -1, 0, 1, 0,
    1, -1, 0, 1, 0,
   -1, -1, 0, 0, 0,
   -1, 1, 0, 0, 1]

/-- Embeds `RenderResultDisplay::draw` (ComputeRaytraceRenderer.cpp:160-175):
clears the screen, activates the display program, binds the screen-quad
VAO, selects texture unit 0 and binds `result` to it, sets the `tex`
sampler uniform to 0, and draws `_screenQuadVertices.size()/5` vertices as
triangles. -/
def RenderResultDisplay.draw (d : RenderResultDisplay) (result : Texture) :
    Except GLError (Program × List GLCommand) :=
  match d._display.setUniformI "tex" 0 with
  | .error e => .error e
  | .ok (p1, cu) =>
    .ok (p1,
    [.clearColor 0 0 0 1,
     .clear (GL_COLOR_BUFFER_BIT ||| GL_DEPTH_BUFFER_BIT),
     .useProgram d._display.id,
     .bindVertexArray d._screenQuadVAO,
     .activeTexture GL_TEXTURE0,
     .bindTexture result.ttype result.id,
     cu,
     .drawArrays GL_TRIANGLES 0 (RenderResultDisplay._screenQuadVertices.length / 5)])

/- ===[ Concrete demo objects (scene from main.cpp:430-458) ]=== -/

/-- A compute kernel interface declaring every uniform `render()` sets and
all three storage blocks (the contract of shaders/compute.comp, spec 6). -/
def demoKernel : Program :=
  { id := 1,
    uniformLocs := [("outputImg", 0), ("ambientColor", 1), ("blankColor", 2),
                    ("eyePosition", 3), ("eyeUp", 4), ("eyeForward", 5),
                    ("fov", 6)],
    storageBlocks := ["Spheres", "Materials", "Lights"],
    uniformVals := [] }

/-- The demo scene built in `run` (main.cpp:430-458). -/
def demoScene : Scene :=
  { materials := [{ specular := 1, diffuse := 1, ambient := 1,
                    shininess := 15, color := ⟨1, 1, 1⟩ }],
    spheres := [{ position := ⟨-0.4, 0, -2⟩, r := 1, material := 0 },
                { position := ⟨1.4, 0, -2⟩, r := 0.25, material := 0 }],
    lights := [{ position := ⟨0, 1, 0⟩, color := ⟨0.9, 1, 0.9⟩ }] }

/-- An inert renderer value, used only as the fallback of `okValue`. -/
def fallbackRenderer : ComputeRaytraceRenderer :=
  { _compute := { id := 0, uniformLocs := [], storageBlocks := [], uniformVals := [] },
    _renderResult := { id := 0, ttype := GL_TEXTURE_2D, width := 0, height := 0 },
    _spheres := { id := 0, target := GL_SHADER_STORAGE_BUFFER, data := [] },
    _materials := { id := 0, target := GL_SHADER_STORAGE_BUFFER, data := [] },
    _lights := { id := 0, target := GL_SHADER_STORAGE_BUFFER, data := [] },
    _width := 0, _height := 0,
    ambientColor := ⟨0, 0, 0⟩, blankColor := ⟨0, 0, 0⟩,
    eyePosition := ⟨0, 0, 0⟩, eyeForward := ⟨0, 0, 0⟩,
    eyeUp := ⟨0, 0, 0⟩, fov := 0 }

/-- The demo construction: `Renderer renderer{scene, 640, 480}` (main.cpp:461). -/
def demoConstruct : Except GLError (ComputeRaytraceRenderer × List GLCommand) :=
  ComputeRaytraceRenderer.construct demoKernel 2 3 4 5 demoScene 640 480

/-- The renderer the demo construction yields. -/
def demoRenderer : ComputeRaytraceRenderer :=
  (okValue demoConstruct (fallbackRenderer, [])).1

/-- The GL commands the demo construction issues. -/
def demoConstructTrace : List GLCommand :=
  (okValue demoConstruct (fallbackRenderer, [])).2

/- ===[ Helper lemmas ]=== -/

theorem ofNat_ne_neg_one (l : Nat) : ¬ (Int.ofNat l = -1) := by
  intro h
  have h0 : (0 : Int) ≤ Int.ofNat l := Int.ofNat_nonneg l
  rw [h] at h0
  omega

theorem _getUniformLocation_eq_ok (p : Program) (n : String) (l : Nat)
    (h : p.uniformLocs.lookup n = some l) :
    p._getUniformLocation n = .ok (Int.ofNat l) := by
  simp only [Program._getUniformLocation, glGetUniformLocation, h]
  rw [if_neg (ofNat_ne_neg_one l)]

theorem _getUniformLocation_eq_error (p : Program) (n : String)
    (h : p.uniformLocs.lookup n = none) :
    p._getUniformLocation n = .error (.noSuchUniform n) := by
  simp [Program._getUniformLocation, glGetUniformLocation, h]

theorem setUniformF_eq_ok (p : Program) (n : String) (v : GLfloat) (l : Nat)
    (h : p.uniformLocs.lookup n = some l) :
    p.setUniformF n v
      = .ok (glUniform1f p (Int.ofNat l) v, .uniform1f (Int.ofNat l) v) := by
  simp [Program.setUniformF, _getUniformLocation_eq_ok p n l h, Except.bind]

theorem setUniformI_eq_ok (p : Program) (n : String) (v : Int) (l : Nat)
    (h : p.uniformLocs.lookup n = some l) :
    p.setUniformI n v
      = .ok (glUniform1i p (Int.ofNat l) v, .uniform1i (Int.ofNat l) v) := by
  simp [Program.setUniformI, _getUniformLocation_eq_ok p n l h, Except.bind]

theorem setUniformVec3_eq_ok (p : Program) (n : String) (v : Vec3) (l : Nat)
    (h : p.uniformLocs.lookup n = some l) :
    p.setUniformVec3 n v
      = .ok (glUniform3fv p (Int.ofNat l) v, .uniform3f (Int.ofNat l) v) := by
  simp [Program.setUniformVec3, _getUniformLocation_eq_ok p n l h, Except.bind]

theorem setUniformF_eq_error (p : Program) (n : String) (v : GLfloat)
    (h : p.uniformLocs.lookup n = none) :
    p.setUniformF n v = .error (.noSuchUniform n) := by
  simp [Program.setUniformF, _getUniformLocation_eq_error p n h, Except.bind]

theorem setUniformI_eq_error (p : Program) (n : String) (v : Int)
    (h : p.uniformLocs.lookup n = none) :
    p.setUniformI n v = .error (.noSuchUniform n) := by
  simp [Program.setUniformI, _getUniformLocation_eq_error p n h, Except.bind]

theorem setUniformVec3_eq_error (p : Program) (n : String) (v : Vec3)
    (h : p.uniformLocs.lookup n = none) :
    p.setUniformVec3 n v = .error (.noSuchUniform n) := by
  simp [Program.setUniformVec3, _getUniformLocation_eq_error p n h, Except.bind]

theorem glUniform1i_uniformLocs (p : Program) (l : Int) (v : Int) :
    (glUniform1i p l v).uniformLocs = p.uniformLocs := rfl

theorem glUniform3fv_uniformLocs (p : Program) (l : Int) (v : Vec3) :
    (glUniform3fv p l v).uniformLocs = p.uniformLocs := rfl

theorem glUniform1f_uniformLocs (p : Program) (l : Int) (v : GLfloat) :
    (glUniform1f p l v).uniformLocs = p.uniformLocs := rfl

/-- The full success-path trace of `render()` given the locations of the
seven uniforms. -/
theorem render_trace_eq (r : ComputeRaytraceRenderer) (l1 l2 l3 l4 l5 l6 l7 : Nat)
    (h1 : r._compute.uniformLocs.lookup "outputImg" = some l1)
    (h2 : r._compute.uniformLocs.lookup "ambientColor" = some l2)
    (h3 : r._compute.uniformLocs.lookup "blankColor" = some l3)
    (h4 : r._compute.uniformLocs.lookup "eyePosition" = some l4)
    (h5 : r._compute.uniformLocs.lookup "eyeUp" = some l5)
    (h6 : r._compute.uniformLocs.lookup "eyeForward" = some l6)
    (h7 : r._compute.uniformLocs.lookup "fov" = some l7) :
    Except.map Prod.snd r.render = .ok
      [.useProgram r._compute.id,
       .activeTexture GL_TEXTURE0,
       .bindTexture r._renderResult.ttype r._renderResult.id,
       .uniform1i (Int.ofNat l1) 0,
       .uniform3f (Int.ofNat l2) r.ambientColor,
       .uniform3f (Int.ofNat l3) r.blankColor,
       .uniform3f (Int.ofNat l4) r.eyePosition,
       .uniform3f (Int.ofNat l5) r.eyeUp,
       .uniform3f (Int.ofNat l6) r.eyeForward,
       .uniform1f (Int.ofNat l7) r.fov,
       .dispatchCompute r._width r._height 1,
       .memoryBarrier GL_SHADER_IMAGE_ACCESS_BARRIER_BIT] := by
  simp only [ComputeRaytraceRenderer.render, Program.setUniformI,
    Program.setUniformVec3, Program.setUniformF, Program._getUniformLocation,
    glGetUniformLocation, glUniform1i, glUniform3fv, glUniform1f,
    h1, h2, h3, h4, h5, h6, h7, ofNat_ne_neg_one, if_false, Except.map]

/-- Lemma: `render()` succeeds exactly when all seven uniform names are active. -/
theorem render_isOk_eq (r : ComputeRaytraceRenderer) :
    isOkE r.render = renderUniformNames.all r._compute.hasActiveUniform := by
  simp only [renderUniformNames, List.all_cons, List.all_nil, Bool.and_true,
    Program.hasActiveUniform, ComputeRaytraceRenderer.render,
    Program.setUniformI, Program.setUniformVec3, Program.setUniformF,
    Program._getUniformLocation, glGetUniformLocation,
    glUniform1i, glUniform3fv, glUniform1f]
  cases hl1 : List.lookup "outputImg" r._compute.uniformLocs with
  | none => simp [isOkE, hl1]
  | some l1 =>
  simp only [hl1, Option.isSome_some, Bool.true_and,
    if_neg (ofNat_ne_neg_one l1)]
  cases hl2 : List.lookup "ambientColor" r._compute.uniformLocs with
  | none => simp [isOkE, hl2]
  | some l2 =>
  simp only [hl2, Option.isSome_some, Bool.true_and,
    if_neg (ofNat_ne_neg_one l2)]
  cases hl3 : List.lookup "blankColor" r._compute.uniformLocs with
  | none => simp [isOkE, hl3]
  | some l3 =>
  simp only [hl3, Option.isSome_some, Bool.true_and,
    if_neg (ofNat_ne_neg_one l3)]
  cases hl4 : List.lookup "eyePosition" r._compute.uniformLocs with
  | none => simp [isOkE, hl4]
  | some l4 =>
  simp only [hl4, Option.isSome_some, Bool.true_and,
    if_neg (ofNat_ne_neg_one l4)]
  cases hl5 : List.lookup "eyeUp" r._compute.uniformLocs with
  | none => simp [isOkE, hl5]
  | some l5 =>
  simp only [hl5, Option.isSome_some, Bool.true_and,
    if_neg (ofNat_ne_neg_one l5)]
  cases hl6 : List.lookup "eyeForward" r._compute.uniformLocs with
  | none => simp [isOkE, hl6]
  | some l6 =>
  simp only [hl6, Option.isSome_some, Bool.true_and,
    if_neg (ofNat_ne_neg_one l6)]
  cases hl7 : List.lookup "fov" r._compute.uniformLocs with
  | none => simp [isOkE, hl7]
  | some l7 =>
  simp [hl7, if_neg (ofNat_ne_neg_one l7), isOkE]

/-- Whatever `render()` returns, the renderer state it yields differs from
the input at most in the compute program's uniform values: the three scene
buffers, the output texture and the stored dimensions are unchanged. -/
theorem render_ok_state (r r2 : ComputeRaytraceRenderer) (t : List GLCommand)
    (h : r.render = .ok (r2, t)) :
    r2._spheres = r._spheres ∧ r2._materials = r._materials ∧
    r2._lights = r._lights ∧ r2._renderResult = r._renderResult ∧
    r2._width = r._width ∧ r2._height = r._height := by
  unfold ComputeRaytraceRenderer.render at h
  repeat' split at h
  all_goals simp_all
  obtain ⟨hr2, -⟩ := h
  subst hr2
  simp

/-- A command that replaces a GL buffer's contents. -/
def GLCommand.writesBufferData : GLCommand → Bool
  | .bufferData _ _ _ => true
  | _ => false

theorem setUniformI_ok_shape (p : Program) (n : String) (v : Int)
    (q : Program) (c : GLCommand) (h : p.setUniformI n v = .ok (q, c)) :
    ∃ loc, c = GLCommand.uniform1i loc v := by
  unfold Program.setUniformI at h
  split at h
  · cases h
  · simp only [Except.ok.injEq, Prod.mk.injEq] at h
    exact ⟨_, h.2.symm⟩

theorem setUniformVec3_ok_shape (p : Program) (n : String) (v : Vec3)
    (q : Program) (c : GLCommand) (h : p.setUniformVec3 n v = .ok (q, c)) :
    ∃ loc, c = GLCommand.uniform3f loc v := by
  unfold Program.setUniformVec3 at h
  split at h
  · cases h
  · simp only [Except.ok.injEq, Prod.mk.injEq] at h
    exact ⟨_, h.2.symm⟩

theorem setUniformF_ok_shape (p : Program) (n : String) (v : GLfloat)
    (q : Program) (c : GLCommand) (h : p.setUniformF n v = .ok (q, c)) :
    ∃ loc, c = GLCommand.uniform1f loc v := by
  unfold Program.setUniformF at h
  split at h
  · cases h
  · simp only [Except.ok.injEq, Prod.mk.injEq] at h
    exact ⟨_, h.2.symm⟩

/-- Lemma: `render()` issues no buffer upload: its trace holds no `glBufferData`. -/
theorem render_trace_no_bufferData (r r2 : ComputeRaytraceRenderer)
    (t : List GLCommand) (h : r.render = .ok (r2, t)) :
    t.all (fun c => !c.writesBufferData) = true := by
  unfold ComputeRaytraceRenderer.render at h
  repeat' split at h
  all_goals simp_all
  rename_i x1 q1 c1 e1 x2 q2 c2 e2 x3 q3 c3 e3 x4 q4 c4 e4 x5 q5 c5 e5
    x6 q6 c6 e6 x7 q7 c7 e7
  obtain ⟨-, ht⟩ := h
  obtain ⟨la1, hc1⟩ := setUniformI_ok_shape _ _ _ _ _ e1
  obtain ⟨la2, hc2⟩ := setUniformVec3_ok_shape _ _ _ _ _ e2
  obtain ⟨la3, hc3⟩ := setUniformVec3_ok_shape _ _ _ _ _ e3
  obtain ⟨la4, hc4⟩ := setUniformVec3_ok_shape _ _ _ _ _ e4
  obtain ⟨la5, hc5⟩ := setUniformVec3_ok_shape _ _ _ _ _ e5
  obtain ⟨la6, hc6⟩ := setUniformVec3_ok_shape _ _ _ _ _ e6
  obtain ⟨la7, hc7⟩ := setUniformF_ok_shape _ _ _ _ _ e7
  subst hc1 hc2 hc3 hc4 hc5 hc6 hc7 ht
  intro x hx
  fin_cases hx <;> rfl

theorem resourceIndexAux_isSome (name : String) (l : List String)
    (h : name ∈ l) : (resourceIndexAux name l).isSome = true := by
  induction l with
  | nil => cases h
  | cons b rest ih =>
      unfold resourceIndexAux
      by_cases hb : b = name
      · simp [hb]
      · rcases List.mem_cons.mp h with h1 | h2
        · exact absurd h1.symm hb
        · simp [hb, Option.isSome_map, ih h2]

/-- The full result of the constructor when all three storage blocks
resolve: the three SSBOs hold the scene lists verbatim, the output texture
storage is (w, h), and the trace sets up the texture (including the
image-unit-0 registration) and uploads the three buffers. -/
theorem construct_ok (compute : Program) (texId sId mId lId : Nat)
    (scene : Scene) (w h : Nat) (bS bM bL : Nat)
    (hs : glGetProgramResourceIndex compute "Spheres" = some bS)
    (hm : glGetProgramResourceIndex compute "Materials" = some bM)
    (hl : glGetProgramResourceIndex compute "Lights" = some bL) :
    ComputeRaytraceRenderer.construct compute texId sId mId lId scene w h =
      .ok ({ _compute := compute,
             _renderResult := { id := texId, ttype := GL_TEXTURE_2D,
                                width := w, height := h },
             _spheres := { id := sId, target := GL_SHADER_STORAGE_BUFFER,
                           data := scene.spheres },
             _materials := { id := mId, target := GL_SHADER_STORAGE_BUFFER,
                             data := scene.materials },
             _lights := { id := lId, target := GL_SHADER_STORAGE_BUFFER,
                          data := scene.lights },
             _width := w, _height := h,
             ambientColor := ⟨0, 0, 0⟩, blankColor := ⟨0, 0, 0⟩,
             eyePosition := ⟨0, 0, 0⟩, eyeForward := ⟨0, 0, 0⟩,
             eyeUp := ⟨0, 0, 0⟩, fov := 0 },
           [.bindTexture GL_TEXTURE_2D texId,
            .texParameteri GL_TEXTURE_WRAP_S GL_CLAMP_TO_EDGE,
            .texParameteri GL_TEXTURE_WRAP_T GL_CLAMP_TO_EDGE,
            .texParameteri GL_TEXTURE_MAG_FILTER GL_NEAREST,
            .texParameteri GL_TEXTURE_MIN_FILTER GL_NEAREST,
            .texImage2D GL_TEXTURE_2D GL_RGBA32F w h,
            .bindImageTexture 0 texId GL_READ_WRITE GL_RGBA32F,
            .bindTexture GL_TEXTURE_2D 0,
            .bindBuffer GL_SHADER_STORAGE_BUFFER sId,
            .bufferData GL_SHADER_STORAGE_BUFFER GL_STATIC_DRAW scene.spheres.length,
            .bindBufferBase GL_SHADER_STORAGE_BUFFER bS sId,
            .bindBuffer GL_SHADER_STORAGE_BUFFER 0,
            .bindBuffer GL_SHADER_STORAGE_BUFFER mId,
            .bufferData GL_SHADER_STORAGE_BUFFER GL_STATIC_DRAW scene.materials.length,
            .bindBufferBase GL_SHADER_STORAGE_BUFFER bM mId,
            .bindBuffer GL_SHADER_STORAGE_BUFFER 0,
            .bindBuffer GL_SHADER_STORAGE_BUFFER lId,
            .bufferData GL_SHADER_STORAGE_BUFFER GL_STATIC_DRAW scene.lights.length,
            .bindBufferBase GL_SHADER_STORAGE_BUFFER bL lId,
            .bindBuffer GL_SHADER_STORAGE_BUFFER 0]) := by
  simp [ComputeRaytraceRenderer.construct, _initComputeBuffer, hs, hm, hl]

/-- Inversion: a successful `_initComputeBuffer` returns the buffer with
`data` uploaded (a full replace). -/
theorem _initComputeBuffer_ok_state {T : Type} (compute : Program)
    (buffer : Buffer T) (n : String) (data : List T) (b2 : Buffer T)
    (t : List GLCommand)
    (h : _initComputeBuffer compute buffer n data = .ok (b2, t)) :
    b2 = { buffer with data := data } := by
  unfold _initComputeBuffer at h
  split at h
  · cases h
  · simp only [Except.ok.injEq, Prod.mk.injEq] at h
    exact h.1.symm

/-- Inversion: whenever the constructor succeeds, the three SSBOs hold the
scene lists verbatim, the renderer's compute program is the given one, the
output texture storage is (w0, h0), and the construction trace contains the
image-unit-0 registration of the output texture. -/
theorem construct_ok_state (compute : Program) (texId sId mId lId : Nat)
    (scene : Scene) (w0 h0 : Nat) (r0 : ComputeRaytraceRenderer)
    (t0 : List GLCommand)
    (hc : ComputeRaytraceRenderer.construct compute texId sId mId lId scene w0 h0
            = .ok (r0, t0)) :
    r0._spheres.data = scene.spheres ∧ r0._materials.data = scene.materials ∧
    r0._lights.data = scene.lights ∧ r0._compute = compute ∧
    r0._renderResult = { id := texId, ttype := GL_TEXTURE_2D,
                         width := w0, height := h0 } ∧
    r0._width = w0 ∧ r0._height = h0 ∧
    GLCommand.bindImageTexture 0 texId GL_READ_WRITE GL_RGBA32F ∈ t0 := by
  unfold ComputeRaytraceRenderer.construct at hc
  repeat' split at hc
  all_goals simp_all
  rename_i x1 bs t1 e1 x2 bm t2 e2 x3 bl t3 e3
  obtain ⟨hr0, ht0⟩ := hc
  have hbs := _initComputeBuffer_ok_state _ _ _ _ _ _ e1
  have hbm := _initComputeBuffer_ok_state _ _ _ _ _ _ e2
  have hbl := _initComputeBuffer_ok_state _ _ _ _ _ _ e3
  subst hr0 ht0 hbs hbm hbl
  simp

/-- A command that registers a texture level as an image unit. -/
def GLCommand.isBindImageTexture : GLCommand → Bool
  | .bindImageTexture _ _ _ _ => true
  | _ => false

/- ===[ Further concrete inputs used by counterexamples and witnesses ]=== -/

/-- A compute kernel declaring the Spheres and Lights storage blocks but
not Materials. -/
def kernelMissingMaterials : Program :=
  { id := 1, uniformLocs := demoKernel.uniformLocs,
    storageBlocks := ["Spheres", "Lights"], uniformVals := [] }

/-- A compute kernel declaring all three storage blocks and every uniform
`render()` sets except `ambientColor` (as after driver optimization strips
an unused uniform). -/
def kernelNoAmbient : Program :=
  { id := 1,
    uniformLocs := [("outputImg", 0), ("blankColor", 2), ("eyePosition", 3),
                    ("eyeUp", 4), ("eyeForward", 5), ("fov", 6)],
    storageBlocks := ["Spheres", "Materials", "Lights"],
    uniformVals := [] }

/-- The renderer built on `kernelNoAmbient` with the demo scene. -/
def rendererNoAmbient : ComputeRaytraceRenderer :=
  (okValue (ComputeRaytraceRenderer.construct kernelNoAmbient 2 3 4 5
      demoScene 640 480) (fallbackRenderer, [])).1

/-- The renderer state after `demoRenderer.render()`. -/
def demoRendered : ComputeRaytraceRenderer :=
  (okValue demoRenderer.render (fallbackRenderer, [])).1

/-- The GL commands `demoRenderer.render()` issues. -/
def demoRenderTrace : List GLCommand :=
  (okValue demoRenderer.render (fallbackRenderer, [])).2

/-- A display whose graphics program has the `tex` sampler at location 0. -/
def demoDisplay : RenderResultDisplay :=
  { _display := { id := 9, uniformLocs := [("tex", 0)], storageBlocks := [],
                  uniformVals := [] },
    _screenQuadVAO := 7 }

/-- A scene whose single sphere refers to material index -1 while the
material list is empty: both out-of-range conditions at once. -/
def sceneBadMaterialIndex : Scene :=
  { materials := [],
    spheres := [{ position := ⟨0, 0, -2⟩, r := 1, material := -1 }],
    lights := [] }

/- ===[ Claim theorems ]=== -/

/-- C1: evaluation of the code at the failing input.  The claim says a
missing storage block yields an error whose message names exactly the
absent block.  With a kernel that declares `Spheres` and `Lights` but not
`Materials`, construction does fail — but the thrown error names
`Spheres`, because `_initComputeBuffer` hardcodes the string "Spheres" in
its error message (ComputeRaytraceRenderer.hpp:66-68) instead of using its
`buffer_name` parameter. -/
theorem C1_error_names_wrong_block :
    ComputeRaytraceRenderer.construct kernelMissingMaterials 2 3 4 5
        demoScene 640 480
      = .error (.noShaderStorageBlockNamed "Spheres") := by
  rfl

/-- C2 counterexample: the claim says a per-frame uniform-set failure is
caught at the call site and does not abort the render call.  For the
renderer whose kernel lacks the `ambientColor` uniform, `render()` is not
`.ok` at all: the exception escapes `render()` (there is no try/catch in
ComputeRaytraceRenderer.cpp:106-130), so the call aborts before the
remaining uniforms, the dispatch and the barrier. -/
theorem C2_counterexample :
    rendererNoAmbient.render = .error (.noSuchUniform "ambientColor") := by
  rfl

/-- C2 (amended): a failure to set a uniform during `render()` is not
caught inside `render()`: the exception aborts the rest of the render call
and propagates to the caller, so `render()` completes exactly when every
one of the seven uniform names it sets is active in the compute program. -/
theorem C2_uniform_failure_aborts_render (r : ComputeRaytraceRenderer) :
    isOkE r.render = renderUniformNames.all r._compute.hasActiveUniform :=
  render_isOk_eq r

/-- C3 counterexample: the claim says every `render()` call binds the
output texture as image unit 0.  The demo renderer's `render()` succeeds,
yet its trace contains no `glBindImageTexture` call at all (that call is
issued once, by the constructor, ComputeRaytraceRenderer.cpp:78-79). -/
theorem C3_counterexample :
    isOkE demoRenderer.render = true
  ∧ (okValue (Except.map Prod.snd demoRenderer.render) []).all
      (fun c => !c.isBindImageTexture) = true := by
  decide

/-- C3 (amended): every `render()` call performs, in order: activate the
compute program; select texture unit 0 and bind the output texture to it
(a sampler bind, not an image bind); push the uniforms `outputImg`,
`ambientColor`, `blankColor`, `eyePosition`, `eyeUp`, `eyeForward`, `fov`
in that order; dispatch one work group per output pixel (width, height, 1);
and issue a memory barrier restricted to image access.  The image-unit-0
binding of the output texture is established once, at construction. -/
theorem C3_render_protocol (r : ComputeRaytraceRenderer)
    (l1 l2 l3 l4 l5 l6 l7 : Nat)
    (h1 : r._compute.uniformLocs.lookup "outputImg" = some l1)
    (h2 : r._compute.uniformLocs.lookup "ambientColor" = some l2)
    (h3 : r._compute.uniformLocs.lookup "blankColor" = some l3)
    (h4 : r._compute.uniformLocs.lookup "eyePosition" = some l4)
    (h5 : r._compute.uniformLocs.lookup "eyeUp" = some l5)
    (h6 : r._compute.uniformLocs.lookup "eyeForward" = some l6)
    (h7 : r._compute.uniformLocs.lookup "fov" = some l7)
    (compute : Program) (texId sId mId lId : Nat) (scene : Scene)
    (w0 h0 : Nat) (r0 : ComputeRaytraceRenderer) (t0 : List GLCommand)
    (hc : ComputeRaytraceRenderer.construct compute texId sId mId lId
            scene w0 h0 = .ok (r0, t0)) :
    Except.map Prod.snd r.render = .ok
      [.useProgram r._compute.id,
       .activeTexture GL_TEXTURE0,
       .bindTexture r._renderResult.ttype r._renderResult.id,
       .uniform1i (Int.ofNat l1) 0,
       .uniform3f (Int.ofNat l2) r.ambientColor,
       .uniform3f (Int.ofNat l3) r.blankColor,
       .uniform3f (Int.ofNat l4) r.eyePosition,
       .uniform3f (Int.ofNat l5) r.eyeUp,
       .uniform3f (Int.ofNat l6) r.eyeForward,
       .uniform1f (Int.ofNat l7) r.fov,
       .dispatchCompute r._width r._height 1,
       .memoryBarrier GL_SHADER_IMAGE_ACCESS_BARRIER_BIT]
  ∧ GLCommand.bindImageTexture 0 texId GL_READ_WRITE GL_RGBA32F ∈ t0 :=
  ⟨render_trace_eq r l1 l2 l3 l4 l5 l6 l7 h1 h2 h3 h4 h5 h6 h7,
   (construct_ok_state compute texId sId mId lId scene w0 h0 r0 t0 hc).2.2.2.2.2.2.2⟩

/-- C3 witness: the protocol evaluated on the demo renderer. -/
theorem C3_witness :
    Except.map Prod.snd demoRenderer.render = .ok
      [.useProgram demoRenderer._compute.id,
       .activeTexture GL_TEXTURE0,
       .bindTexture demoRenderer._renderResult.ttype demoRenderer._renderResult.id,
       .uniform1i (Int.ofNat 0) 0,
       .uniform3f (Int.ofNat 1) demoRenderer.ambientColor,
       .uniform3f (Int.ofNat 2) demoRenderer.blankColor,
       .uniform3f (Int.ofNat 3) demoRenderer.eyePosition,
       .uniform3f (Int.ofNat 4) demoRenderer.eyeUp,
       .uniform3f (Int.ofNat 5) demoRenderer.eyeForward,
       .uniform1f (Int.ofNat 6) demoRenderer.fov,
       .dispatchCompute demoRenderer._width demoRenderer._height 1,
       .memoryBarrier GL_SHADER_IMAGE_ACCESS_BARRIER_BIT]
  ∧ GLCommand.bindImageTexture 0 2 GL_READ_WRITE GL_RGBA32F ∈ demoConstructTrace :=
  C3_render_protocol demoRenderer 0 1 2 3 4 5 6
    rfl rfl rfl rfl rfl rfl rfl
    demoKernel 2 3 4 5 demoScene 640 480 demoRenderer demoConstructTrace rfl

/-- C4: evaluation of the code at the failing input.  The claim says each
wrapper's destruction releases the GPU object of the kind that was
acquired.  The `Texture` constructor acquires a texture object
(`glGenTextures`, Texture.cpp:35), but its deleter `_texture_delete`
releases a *buffer* object (`glDeleteBuffers`, Texture.cpp:26), so the
texture is never freed.  The Buffer, VertexArray and Program deleters do
release the matching kind. -/
theorem C4_texture_deleter_wrong_kind :
    (_texture_delete 1).kindReleased = GLObjKind.bufferObj
  ∧ Texture.kindAcquired = GLObjKind.textureObj
  ∧ (_texture_delete 1).kindReleased ≠ Texture.kindAcquired
  ∧ (_buffer_delete 1).kindReleased = Buffer.kindAcquired
  ∧ (_vertex_array_delete 1).kindReleased = VertexArray.kindAcquired
  ∧ (ProgramDeleter 1).kindReleased = Program.kindAcquired := by
  decide

/-- C5: `setUniformF`/`setUniformI`/`setUniformVec3` succeed exactly when
the program has an active uniform of the given name; when it does not,
each raises the unknown-uniform error carrying that name, and the program
is left untouched (the throw happens before any `glUniform` call, so no
uniform of the program is modified). -/
theorem C5_setUniform_unknown_uniform (p : Program) (name : String)
    (vf : GLfloat) (vi : Int) (vv : Vec3) :
    (isOkE (p.setUniformF name vf) = p.hasActiveUniform name)
  ∧ (isOkE (p.setUniformI name vi) = p.hasActiveUniform name)
  ∧ (isOkE (p.setUniformVec3 name vv) = p.hasActiveUniform name)
  ∧ (p.hasActiveUniform name = false →
       p.setUniformF name vf = .error (.noSuchUniform name)
     ∧ p.setUniformI name vi = .error (.noSuchUniform name)
     ∧ p.setUniformVec3 name vv = .error (.noSuchUniform name)
     ∧ p.setUniformFState name vf = p
     ∧ p.setUniformIState name vi = p
     ∧ p.setUniformVec3State name vv = p) := by
  cases hl : p.uniformLocs.lookup name with
  | none =>
      have hf := setUniformF_eq_error p name vf hl
      have hi := setUniformI_eq_error p name vi hl
      have hv := setUniformVec3_eq_error p name vv hl
      refine ⟨?_, ?_, ?_, ?_⟩ <;>
        simp [hf, hi, hv, isOkE, Program.hasActiveUniform, hl,
          Program.setUniformFState, Program.setUniformIState,
          Program.setUniformVec3State]
  | some l =>
      have hf := setUniformF_eq_ok p name vf l hl
      have hi := setUniformI_eq_ok p name vi l hl
      have hv := setUniformVec3_eq_ok p name vv l hl
      refine ⟨?_, ?_, ?_, ?_⟩ <;>
        simp [hf, hi, hv, isOkE, Program.hasActiveUniform, hl]

/-- C5 witness: the unknown-uniform case evaluated on the demo kernel and
the name "nonexistent", which it does not declare. -/
theorem C5_witness :
    demoKernel.setUniformF "nonexistent" 1 = .error (.noSuchUniform "nonexistent")
  ∧ demoKernel.setUniformI "nonexistent" 0 = .error (.noSuchUniform "nonexistent")
  ∧ demoKernel.setUniformVec3 "nonexistent" ⟨0, 0, 0⟩
      = .error (.noSuchUniform "nonexistent")
  ∧ demoKernel.setUniformFState "nonexistent" 1 = demoKernel
  ∧ demoKernel.setUniformIState "nonexistent" 0 = demoKernel
  ∧ demoKernel.setUniformVec3State "nonexistent" ⟨0, 0, 0⟩ = demoKernel :=
  (C5_setUniform_unknown_uniform demoKernel "nonexistent" 1 0 ⟨0, 0, 0⟩).2.2.2
    (by rfl)

/-- C6: for all w, h > 0, `setRenderDimensions(w, h)` followed by
`getResult()` yields a texture whose storage dimensions are (w, h), and a
repeated call with the same (w, h) produces the identical state and the
identical reallocation commands (idempotent, not an error). -/
theorem C6_setRenderDimensions_getResult (r : ComputeRaytraceRenderer)
    (w h : Nat) (hw : 0 < w) (hh : 0 < h) :
    ((r.setRenderDimensions w h).1.getResult.width = w)
  ∧ ((r.setRenderDimensions w h).1.getResult.height = h)
  ∧ ((r.setRenderDimensions w h).1.setRenderDimensions w h
       = r.setRenderDimensions w h) := by
  refine ⟨rfl, rfl, ?_⟩
  simp [ComputeRaytraceRenderer.setRenderDimensions]

/-- C6 witness: the demo renderer resized to 64 by 64. -/
theorem C6_witness :
    ((demoRenderer.setRenderDimensions 64 64).1.getResult.width = 64)
  ∧ ((demoRenderer.setRenderDimensions 64 64).1.getResult.height = 64)
  ∧ ((demoRenderer.setRenderDimensions 64 64).1.setRenderDimensions 64 64
       = demoRenderer.setRenderDimensions 64 64) :=
  C6_setRenderDimensions_getResult demoRenderer 64 64 (by decide) (by decide)

/-- C7: the scene buffers are populated exactly once, at construction
(they hold the scene lists verbatim); `setRenderDimensions` changes
nothing but the stored dimensions and the output texture's storage, and
issues no buffer upload; `render` leaves the buffer contents (and the
output texture) unchanged and issues no buffer upload. -/
theorem C7_scene_buffers_immutable (r : ComputeRaytraceRenderer) (w h : Nat)
    (r2 : ComputeRaytraceRenderer) (t : List GLCommand)
    (hr : r.render = .ok (r2, t))
    (compute : Program) (texId sId mId lId : Nat) (scene : Scene)
    (w0 h0 : Nat) (r0 : ComputeRaytraceRenderer) (t0 : List GLCommand)
    (hc : ComputeRaytraceRenderer.construct compute texId sId mId lId
            scene w0 h0 = .ok (r0, t0)) :
    (r0._spheres.data = scene.spheres
   ∧ r0._materials.data = scene.materials
   ∧ r0._lights.data = scene.lights)
  ∧ ((r.setRenderDimensions w h).1._spheres = r._spheres
   ∧ (r.setRenderDimensions w h).1._materials = r._materials
   ∧ (r.setRenderDimensions w h).1._lights = r._lights
   ∧ (r.setRenderDimensions w h).1._compute = r._compute
   ∧ (r.setRenderDimensions w h).1.ambientColor = r.ambientColor
   ∧ (r.setRenderDimensions w h).1.blankColor = r.blankColor
   ∧ (r.setRenderDimensions w h).1.eyePosition = r.eyePosition
   ∧ (r.setRenderDimensions w h).1.eyeForward = r.eyeForward
   ∧ (r.setRenderDimensions w h).1.eyeUp = r.eyeUp
   ∧ (r.setRenderDimensions w h).1.fov = r.fov
   ∧ (r.setRenderDimensions w h).1._renderResult.id = r._renderResult.id
   ∧ (r.setRenderDimensions w h).1._renderResult.ttype = r._renderResult.ttype
   ∧ (r.setRenderDimensions w h).2.all (fun c => !c.writesBufferData) = true)
  ∧ (r2._spheres = r._spheres
   ∧ r2._materials = r._materials
   ∧ r2._lights = r._lights
   ∧ t.all (fun c => !c.writesBufferData) = true) := by
  obtain ⟨cs, cm, cl, -⟩ := construct_ok_state compute texId sId mId lId
    scene w0 h0 r0 t0 hc
  obtain ⟨rs, rm, rl, -⟩ := render_ok_state r r2 t hr
  exact ⟨⟨cs, cm, cl⟩,
    ⟨rfl, rfl, rfl, rfl, rfl, rfl, rfl, rfl, rfl, rfl, rfl, rfl, rfl⟩,
    rs, rm, rl, render_trace_no_bufferData r r2 t hr⟩

/-- C7 witness: evaluated on the demo renderer, its render call and the
demo construction. -/
theorem C7_witness :
    (demoRenderer._spheres.data = demoScene.spheres
   ∧ demoRenderer._materials.data = demoScene.materials
   ∧ demoRenderer._lights.data = demoScene.lights)
  ∧ ((demoRenderer.setRenderDimensions 64 64).1._spheres = demoRenderer._spheres
   ∧ (demoRenderer.setRenderDimensions 64 64).1._materials = demoRenderer._materials
   ∧ (demoRenderer.setRenderDimensions 64 64).1._lights = demoRenderer._lights
   ∧ (demoRenderer.setRenderDimensions 64 64).1._compute = demoRenderer._compute
   ∧ (demoRenderer.setRenderDimensions 64 64).1.ambientColor = demoRenderer.ambientColor
   ∧ (demoRenderer.setRenderDimensions 64 64).1.blankColor = demoRenderer.blankColor
   ∧ (demoRenderer.setRenderDimensions 64 64).1.eyePosition = demoRenderer.eyePosition
   ∧ (demoRenderer.setRenderDimensions 64 64).1.eyeForward = demoRenderer.eyeForward
   ∧ (demoRenderer.setRenderDimensions 64 64).1.eyeUp = demoRenderer.eyeUp
   ∧ (demoRenderer.setRenderDimensions 64 64).1.fov = demoRenderer.fov
   ∧ (demoRenderer.setRenderDimensions 64 64).1._renderResult.id
       = demoRenderer._renderResult.id
   ∧ (demoRenderer.setRenderDimensions 64 64).1._renderResult.ttype
       = demoRenderer._renderResult.ttype
   ∧ (demoRenderer.setRenderDimensions 64 64).2.all
       (fun c => !c.writesBufferData) = true)
  ∧ (demoRendered._spheres = demoRenderer._spheres
   ∧ demoRendered._materials = demoRenderer._materials
   ∧ demoRendered._lights = demoRenderer._lights
   ∧ demoRenderTrace.all (fun c => !c.writesBufferData) = true) :=
  C7_scene_buffers_immutable demoRenderer 64 64 demoRendered demoRenderTrace
    rfl demoKernel 2 3 4 5 demoScene 640 480 demoRenderer demoConstructTrace rfl

/-- C8: `draw(texture)` performs, in order: clear the target surface;
activate the display's graphics program; bind the screen-quad vertex
array; bind the texture to sampler unit 0; set the `tex` sampler uniform
to 0; and issue a triangle draw of exactly 6 vertices — the quad's vertex
list has 30 floats at 5 floats per vertex. -/
theorem C8_draw_protocol (d : RenderResultDisplay) (result : Texture)
    (l : Nat) (h : d._display.uniformLocs.lookup "tex" = some l) :
    Except.map Prod.snd (d.draw result) = .ok
      [.clearColor 0 0 0 1,
       .clear (GL_COLOR_BUFFER_BIT ||| GL_DEPTH_BUFFER_BIT),
       .useProgram d._display.id,
       .bindVertexArray d._screenQuadVAO,
       .activeTexture GL_TEXTURE0,
       .bindTexture result.ttype result.id,
       .uniform1i (Int.ofNat l) 0,
       .drawArrays GL_TRIANGLES 0 6]
  ∧ RenderResultDisplay._screenQuadVertices.length = 30
  ∧ RenderResultDisplay._screenQuadVertices.length / 5 = 6 := by
  refine ⟨?_, rfl, by decide⟩
  simp [RenderResultDisplay.draw, setUniformI_eq_ok _ _ _ _ h, Except.map]
  decide

/-- C8 witness: the draw protocol evaluated on a concrete display and the
demo renderer's result texture. -/
theorem C8_witness :
    Except.map Prod.snd (demoDisplay.draw demoRenderer.getResult) = .ok
      [.clearColor 0 0 0 1,
       .clear (GL_COLOR_BUFFER_BIT ||| GL_DEPTH_BUFFER_BIT),
       .useProgram demoDisplay._display.id,
       .bindVertexArray demoDisplay._screenQuadVAO,
       .activeTexture GL_TEXTURE0,
       .bindTexture demoRenderer.getResult.ttype demoRenderer.getResult.id,
       .uniform1i (Int.ofNat 0) 0,
       .drawArrays GL_TRIANGLES 0 6]
  ∧ RenderResultDisplay._screenQuadVertices.length = 30
  ∧ RenderResultDisplay._screenQuadVertices.length / 5 = 6 :=
  C8_draw_protocol demoDisplay demoRenderer.getResult 0 rfl

/-- C9: renderer construction performs no validation of sphere material
indices: whenever the kernel declares the three storage blocks,
construction succeeds for *every* scene — including one whose sphere
holds a negative or out-of-range material index — and the spheres buffer
receives the sphere records exactly as given. -/
theorem C9_no_material_index_validation (compute : Program)
    (texId sId mId lId : Nat) (scene : Scene) (w h : Nat)
    (hs : "Spheres" ∈ compute.storageBlocks)
    (hm : "Materials" ∈ compute.storageBlocks)
    (hl : "Lights" ∈ compute.storageBlocks) :
    isOkE (ComputeRaytraceRenderer.construct compute texId sId mId lId
             scene w h) = true
  ∧ Except.map (fun x => x.1._spheres.data)
      (ComputeRaytraceRenderer.construct compute texId sId mId lId scene w h)
      = .ok scene.spheres := by
  obtain ⟨bS, hbS⟩ := Option.isSome_iff_exists.mp
    (resourceIndexAux_isSome "Spheres" compute.storageBlocks hs)
  obtain ⟨bM, hbM⟩ := Option.isSome_iff_exists.mp
    (resourceIndexAux_isSome "Materials" compute.storageBlocks hm)
  obtain ⟨bL, hbL⟩ := Option.isSome_iff_exists.mp
    (resourceIndexAux_isSome "Lights" compute.storageBlocks hl)
  rw [construct_ok compute texId sId mId lId scene w h bS bM bL hbS hbM hbL]
  exact ⟨rfl, rfl⟩

/-- C9 witness: construction succeeds on the scene whose sphere refers to
material -1 with an empty material list, and uploads it verbatim. -/
theorem C9_witness :
    isOkE (ComputeRaytraceRenderer.construct demoKernel 2 3 4 5
             sceneBadMaterialIndex 64 64) = true
  ∧ Except.map (fun x => x.1._spheres.data)
      (ComputeRaytraceRenderer.construct demoKernel 2 3 4 5
         sceneBadMaterialIndex 64 64)
      = .ok sceneBadMaterialIndex.spheres :=
  C9_no_material_index_validation demoKernel 2 3 4 5 sceneBadMaterialIndex
    64 64 (by decide) (by decide) (by decide)

/-- C10: a width of 0, and likewise a height of 0 with nonzero width, is
accepted without validation by both the constructor and
`setRenderDimensions`; a subsequent `render()` succeeds and dispatches a
(0, h, 1) — respectively (w, 0, 1) — compute grid, i.e. no work, rather
than failing. -/
theorem C10_zero_dims_accepted (r : ComputeRaytraceRenderer) (w h : Nat)
    (l1 l2 l3 l4 l5 l6 l7 : Nat)
    (h1 : r._compute.uniformLocs.lookup "outputImg" = some l1)
    (h2 : r._compute.uniformLocs.lookup "ambientColor" = some l2)
    (h3 : r._compute.uniformLocs.lookup "blankColor" = some l3)
    (h4 : r._compute.uniformLocs.lookup "eyePosition" = some l4)
    (h5 : r._compute.uniformLocs.lookup "eyeUp" = some l5)
    (h6 : r._compute.uniformLocs.lookup "eyeForward" = some l6)
    (h7 : r._compute.uniformLocs.lookup "fov" = some l7)
    (compute : Program) (texId sId mId lId : Nat) (scene : Scene)
    (wd hgt : Nat)
    (hs : "Spheres" ∈ compute.storageBlocks)
    (hm : "Materials" ∈ compute.storageBlocks)
    (hl : "Lights" ∈ compute.storageBlocks) :
    isOkE ((r.setRenderDimensions 0 h).1.render) = true
  ∧ GLCommand.dispatchCompute 0 h 1 ∈
      okValue (Except.map Prod.snd ((r.setRenderDimensions 0 h).1.render)) []
  ∧ isOkE ((r.setRenderDimensions w 0).1.render) = true
  ∧ GLCommand.dispatchCompute w 0 1 ∈
      okValue (Except.map Prod.snd ((r.setRenderDimensions w 0).1.render)) []
  ∧ isOkE (ComputeRaytraceRenderer.construct compute texId sId mId lId
             scene 0 hgt) = true
  ∧ isOkE (ComputeRaytraceRenderer.construct compute texId sId mId lId
             scene wd 0) = true := by
  have ht0h := render_trace_eq ((r.setRenderDimensions 0 h).1)
    l1 l2 l3 l4 l5 l6 l7 h1 h2 h3 h4 h5 h6 h7
  have htw0 := render_trace_eq ((r.setRenderDimensions w 0).1)
    l1 l2 l3 l4 l5 l6 l7 h1 h2 h3 h4 h5 h6 h7
  obtain ⟨bS, hbS⟩ := Option.isSome_iff_exists.mp
    (resourceIndexAux_isSome "Spheres" compute.storageBlocks hs)
  obtain ⟨bM, hbM⟩ := Option.isSome_iff_exists.mp
    (resourceIndexAux_isSome "Materials" compute.storageBlocks hm)
  obtain ⟨bL, hbL⟩ := Option.isSome_iff_exists.mp
    (resourceIndexAux_isSome "Lights" compute.storageBlocks hl)
  refine ⟨?_, ?_, ?_, ?_, ?_, ?_⟩
  · cases hrr : (r.setRenderDimensions 0 h).1.render with
    | error e => rw [hrr] at ht0h; cases ht0h
    | ok pair => rfl
  · rw [ht0h]
    simp [okValue, ComputeRaytraceRenderer.setRenderDimensions]
  · cases hrr : (r.setRenderDimensions w 0).1.render with
    | error e => rw [hrr] at htw0; cases htw0
    | ok pair => rfl
  · rw [htw0]
    simp [okValue, ComputeRaytraceRenderer.setRenderDimensions]
  · rw [construct_ok compute texId sId mId lId scene 0 hgt bS bM bL hbS hbM hbL]
    rfl
  · rw [construct_ok compute texId sId mId lId scene wd 0 bS bM bL hbS hbM hbL]
    rfl

/-- C10 witness: the demo renderer resized to 0 by 480 and to 640 by 0,
and the demo kernel constructing at width 0 and at height 0. -/
theorem C10_witness :
    isOkE ((demoRenderer.setRenderDimensions 0 480).1.render) = true
  ∧ GLCommand.dispatchCompute 0 480 1 ∈
      okValue (Except.map Prod.snd
        ((demoRenderer.setRenderDimensions 0 480).1.render)) []
  ∧ isOkE ((demoRenderer.setRenderDimensions 640 0).1.render) = true
  ∧ GLCommand.dispatchCompute 640 0 1 ∈
      okValue (Except.map Prod.snd
        ((demoRenderer.setRenderDimensions 640 0).1.render)) []
  ∧ isOkE (ComputeRaytraceRenderer.construct demoKernel 2 3 4 5
             demoScene 0 480) = true
  ∧ isOkE (ComputeRaytraceRenderer.construct demoKernel 2 3 4 5
             demoScene 640 0) = true :=
  C10_zero_dims_accepted demoRenderer 640 480 0 1 2 3 4 5 6
    rfl rfl rfl rfl rfl rfl rfl
    demoKernel 2 3 4 5 demoScene 640 480 (by decide) (by decide) (by decide)

end CSRT
